import Mathlib

/-!
Shallow embedding of the media-acquisition-and-verification workflow
controller of `src/components/AgeVerification.tsx`.

The component keeps six pieces of React state (lines 11-16):
`error`, `isProcessing`, `isCameraActive`, `selectedFile`, `previewImage`,
`stream`.  We model them as a record `ControllerState`.  DOM refs
(`videoRef`, `canvasRef`) and the results of external calls
(`getUserMedia`, `FileReader`, the classifier, the persistence `fetch`)
are passed as explicit parameters of each operation.  Asynchronous
operations are modelled atomically: each resumes exactly once, and the
concurrency model of the spec rules out interleaved state mutation.
-/

namespace AgeVerification

/-- A user-selected file: its declared MIME type and its byte size
(the only fields `handleFileUpload` consults). -/
structure UploadFile where
  mimeType : String
  size : Nat
deriving DecidableEq, Repr

/-- The React state of the component, lines 11-16 of the source.
A `MediaStream` is opaque; we identify it by a numeric id. -/
structure ControllerState where
  error : Option String
  isProcessing : Bool
  isCameraActive : Bool
  selectedFile : Option UploadFile
  previewImage : Option String
  stream : Option Nat
deriving DecidableEq, Repr

/-- The initial state: every `useState` starts at `null` / `false`. -/
def initialState : ControllerState :=
  { error := none, isProcessing := false, isCameraActive := false,
    selectedFile := none, previewImage := none, stream := none }

/-- Error message set by `startCamera` on `getUserMedia` failure (line 36). -/
def cameraErrorMsg : String :=
  "Impossible d\x27accéder à la caméra. Veuillez autoriser l\x27accès ou utiliser l\x27option de téléchargement."

/-- Error message set by the catch block of `capturePhoto` (line 85). -/
def captureErrorMsg : String :=
  "Erreur lors de la capture de la photo. Veuillez réessayer."

/-- Error message for a non-image MIME type (line 99). -/
def fileTypeErrorMsg : String :=
  "Veuillez sélectionner une image valide."

/-- Error message for an oversized file (line 105). -/
def fileSizeErrorMsg : String :=
  "L\x27image est trop volumineuse. Taille maximum: 5MB"

/-- Error message set by the catch block of `processImage` (line 152): it catches
both a classifier failure and a rejected persistence `fetch`. -/
def processErrorMsg : String :=
  "Erreur lors de l\x27analyse de la photo. Veuillez réessayer."

/-- Prefix of the out-of-range rejection message (line 148), up to the
interpolated detected age. -/
def rejectionMsgPre : String :=
  "Désolé, l\x27âge détecté ("

/-- Suffix of the out-of-range rejection message (line 148), after the
interpolated detected age. -/
def rejectionMsgPost : String :=
  " ans) ne correspond pas aux critères requis (13-17 ans)."

/-- `startCamera` (lines 19-38).  `getUserMediaResult` is `some id` when the
camera request succeeds with a fresh stream, `none` when it throws.
`videoPresent` models whether `videoRef.current` is non-null at bind time.
On success the stream is stored, bound, and the state transitions to
CameraActive only when the video surface exists (the guard of line 27); the
catch branch attaches the camera error message. -/
def startCamera (s : ControllerState) (getUserMediaResult : Option Nat)
    (videoPresent : Bool) : ControllerState :=
  match getUserMediaResult with
  | some mediaStream =>
      if videoPresent then
        { s with stream := some mediaStream, isCameraActive := true,
                 error := none, previewImage := none }
      else s
  | none => { s with error := some cameraErrorMsg }

/-- What happens to the freshly created `MediaStream` inside the
success branch: line 27 binds it only when `videoRef.current` is non-null;
no branch ever stops its tracks. -/
inductive StreamFate where
  | bound
  | stopped
  | abandoned
deriving DecidableEq, Repr

/-- Disposition of the stream created by a successful `getUserMedia` call in
`startCamera` (lines 27-33): bound when the video surface exists, otherwise
neither recorded nor stopped. -/
def startCameraStreamFate (videoPresent : Bool) : StreamFate :=
  if videoPresent then StreamFate.bound else StreamFate.abandoned

/-- `stopCamera` (lines 40-49): stops every track of the held stream (an
external effect), clears it, detaches the video surface, and leaves
CameraActive. -/
def stopCamera (s : ControllerState) : ControllerState :=
  { s with stream := none, isCameraActive := false }

/-- `capturePhoto` (lines 57-87).  Line 58 silently returns when either ref
is null.  `ctxAvailable` models `canvas.getContext` returning non-null: when
it is null the thrown error is caught and the capture error message attached
(lines 65-67, 83-86).  Otherwise the frame is encoded (the resulting data
URL is the parameter `imageDataURL`), stored as the preview, and the camera
stopped (lines 77-81). -/
def capturePhoto (s : ControllerState) (videoPresent canvasPresent ctxAvailable : Bool)
    (imageDataURL : String) : ControllerState :=
  if !videoPresent || !canvasPresent then s
  else if !ctxAvailable then { s with error := some captureErrorMsg }
  else stopCamera { s with previewImage := some imageDataURL }

/-- The JavaScript `String.prototype.startsWith` used on line 98: true when
`pre` is a prefix of `s` (modelled on the character lists of the strings). -/
def strStartsWith (s pre : String) : Bool :=
  pre.data.isPrefixOf s.data

/-- The two ordered validation checks of `handleFileUpload` (lines 97-107):
first the declared MIME type must start with "image/", then the byte size
must not exceed 5 * 1024 * 1024.  Returns the rejection message of the
first failing check, or `none` on pass. -/
def validateFile (file : UploadFile) : Option String :=
  if !(strStartsWith file.mimeType "image/") then some fileTypeErrorMsg
  else if file.size > 5 * 1024 * 1024 then some fileSizeErrorMsg
  else none

/-- `handleFileUpload` (lines 89-127).  `fileInput` is `e.target.files?.[0]`;
`decodeResult` is the data URL the `FileReader` produces, or `none` when
reading fails.  Line 91 returns when no file was selected; lines 94-95 clear
the error and record the file; validation failures attach their message; on
a successful decode the `onload` callback stores the preview (line 114).  A
decode failure makes `onerror` throw outside the try block (lines 118-120),
so no error is attached and no further state changes. -/
def handleFileUpload (s : ControllerState) (fileInput : Option UploadFile)
    (decodeResult : Option String) : ControllerState :=
  match fileInput with
  | none => s
  | some file =>
      let s1 := { s with error := none, selectedFile := some file }
      match validateFile file with
      | some msg => { s1 with error := some msg }
      | none =>
          match decodeResult with
          | some dataURL => { s1 with previewImage := some dataURL }
          | none => s1

/-- Externally observable effects of one `processImage` run: the persistence
calls issued to `/api/photos` with their `{image, age}` payloads, the number
of confirmation alerts shown, and the number of `router.push` navigations. -/
structure ProcessEffects where
  persistCalls : List (String × Int)
  alerts : Nat
  navigations : Nat
deriving DecidableEq, Repr

/-- `processImage` (lines 129-157).  `classifierResult` is the outcome of
`analyzeImageForAge`; `persistResolves` tells whether the awaited `fetch` to
the persistence endpoint resolves (its response is never inspected) or
rejects.  Line 130 returns when no preview is held.  Lines 132-133 set the
processing flag and clear the error.  In range 13-17 the persistence call is
issued and awaited: if it resolves, the alert and the navigation follow; if
it rejects, control jumps to the catch block which attaches the generic
message (lines 150-152), skipping both.  Out of range attaches the rejection
message with the detected value (line 148).  The finally block (lines
153-156) clears the processing flag and the selected file on every path. -/
def processImage (s : ControllerState) (classifierResult : Except Unit Int)
    (persistResolves : Bool) : ControllerState × ProcessEffects :=
  match s.previewImage with
  | none => (s, ⟨[], 0, 0⟩)
  | some img =>
      let s1 := { s with isProcessing := true, error := none }
      match classifierResult with
      | Except.error _ =>
          ({ s1 with error := some processErrorMsg,
                     isProcessing := false, selectedFile := none },
           ⟨[], 0, 0⟩)
      | Except.ok detectedAge =>
          if 13 ≤ detectedAge ∧ detectedAge ≤ 17 then
            if persistResolves then
              ({ s1 with isProcessing := false, selectedFile := none },
               ⟨[(img, detectedAge)], 1, 1⟩)
            else
              ({ s1 with error := some processErrorMsg,
                         isProcessing := false, selectedFile := none },
               ⟨[(img, detectedAge)], 0, 0⟩)
          else
            ({ s1 with error := some (rejectionMsgPre ++ toString detectedAge ++ rejectionMsgPost),
                       isProcessing := false, selectedFile := none },
             ⟨[], 0, 0⟩)

/-- `resetCapture` (lines 159-163): discards the preview, the selected file
and the error. -/
def resetCapture (s : ControllerState) : ControllerState :=
  { s with previewImage := none, selectedFile := none, error := none }

/-! ## Event delivery

The JSX (lines 165-301) renders each affordance only in certain states and
disables most of them while processing; an event can reach a handler only
when its affordance is rendered and enabled.  The predicates below are read
off the rendering conditions. -/

/-- The "Utiliser la caméra" button (lines 201-209): rendered when no
preview is held and the camera is inactive, disabled while processing. -/
def acquireAvail (s : ControllerState) : Bool :=
  s.previewImage.isNone && !s.isCameraActive && !s.isProcessing

/-- The "Capturer la photo" button (lines 275-281): rendered in the camera
branch (no preview, camera active), disabled while processing. -/
def captureAvail (s : ControllerState) : Bool :=
  s.previewImage.isNone && s.isCameraActive && !s.isProcessing

/-- The file input (lines 242-250): rendered when no preview is held and the
camera is inactive, disabled while processing. -/
def uploadAvail (s : ControllerState) : Bool :=
  s.previewImage.isNone && !s.isCameraActive && !s.isProcessing

/-- The "Valider la photo" button (lines 184-190): rendered when a preview
is held, disabled while processing. -/
def processAvail (s : ControllerState) : Bool :=
  s.previewImage.isSome && !s.isProcessing

/-- The "Reprendre la photo" button (lines 191-198): rendered when a preview
is held, disabled while processing. -/
def discardAvail (s : ControllerState) : Bool :=
  s.previewImage.isSome && !s.isProcessing

/-- One user- or environment-triggered operation of the controller, with the
external inputs it consumes. -/
inductive Event where
  | acquire (getUserMediaResult : Option Nat) (videoPresent : Bool)
  | release
  | capture (videoPresent canvasPresent ctxAvailable : Bool) (imageDataURL : String)
  | upload (fileInput : Option UploadFile) (decodeResult : Option String)
  | process (classifierResult : Except Unit Int) (persistResolves : Bool)
  | discard

/-- One step of the controller: the handler runs only when its affordance is
rendered and enabled (release is also invoked unconditionally on teardown,
lines 51-55, and its button is never disabled, lines 282-288). -/
def step (s : ControllerState) : Event → ControllerState
  | Event.acquire r v => if acquireAvail s then startCamera s r v else s
  | Event.release => stopCamera s
  | Event.capture vp cp ctx url => if captureAvail s then capturePhoto s vp cp ctx url else s
  | Event.upload f d => if uploadAvail s then handleFileUpload s f d else s
  | Event.process c p => if processAvail s then (processImage s c p).1 else s
  | Event.discard => if discardAvail s then resetCapture s else s

/-- States reachable from the initial state by sequences of controller
operations. -/
inductive Reachable : ControllerState → Prop where
  | init : Reachable initialState
  | next {s : ControllerState} (e : Event) : Reachable s → Reachable (step s e)

/-- The inductive invariant: the CameraActive flag mirrors the held stream,
and a stream is never held together with a preview image. -/
def StateInv (s : ControllerState) : Prop :=
  (s.isCameraActive = s.stream.isSome) ∧ (s.stream = none ∨ s.previewImage = none)

/-- A state with a held preview image, as produced by a completed capture. -/
def previewState : ControllerState :=
  { initialState with previewImage := some "img" }

/-- A state mid-classification: processing flag set, preview held. -/
def processingState : ControllerState :=
  { initialState with isProcessing := true, previewImage := some "img" }

/-! ## Field-preservation lemmas -/

theorem handleFileUpload_stream (s : ControllerState) (f : Option UploadFile)
    (d : Option String) : (handleFileUpload s f d).stream = s.stream := by
  unfold handleFileUpload
  split
  · rfl
  · split
    · rfl
    · split <;> rfl

theorem handleFileUpload_isCameraActive (s : ControllerState) (f : Option UploadFile)
    (d : Option String) : (handleFileUpload s f d).isCameraActive = s.isCameraActive := by
  unfold handleFileUpload
  split
  · rfl
  · split
    · rfl
    · split <;> rfl

theorem processImage_fst_stream (s : ControllerState) (c : Except Unit Int)
    (p : Bool) : (processImage s c p).1.stream = s.stream := by
  unfold processImage
  split
  · rfl
  · split
    · rfl
    · split
      · split <;> rfl
      · rfl

theorem processImage_fst_isCameraActive (s : ControllerState) (c : Except Unit Int)
    (p : Bool) : (processImage s c p).1.isCameraActive = s.isCameraActive := by
  unfold processImage
  split
  · rfl
  · split
    · rfl
    · split
      · split <;> rfl
      · rfl

theorem processImage_fst_previewImage (s : ControllerState) (c : Except Unit Int)
    (p : Bool) : (processImage s c p).1.previewImage = s.previewImage := by
  unfold processImage
  split
  · rfl
  · case _ img heq =>
    split
    · simp [heq]
    · split
      · split <;> simp [heq]
      · simp [heq]

/-- Every single step of the controller preserves the invariant. -/
theorem stateInv_step (s : ControllerState) (e : Event) (h : StateInv s) :
    StateInv (step s e) := by
  obtain ⟨h1, h2⟩ := h
  cases e with
  | acquire r v =>
      by_cases ha : acquireAvail s = true
      · simp only [step, ha, if_true]
        cases r with
        | none => exact ⟨h1, h2⟩
        | some m =>
            cases v with
            | true => exact ⟨rfl, Or.inr rfl⟩
            | false => exact ⟨h1, h2⟩
      · simp only [step, Bool.not_eq_true] at ha ⊢
        rw [ha]
        exact ⟨h1, h2⟩
  | release => exact ⟨rfl, Or.inl rfl⟩
  | capture vp cp ctx url =>
      by_cases hc : captureAvail s = true
      · simp only [step, hc, if_true]
        unfold capturePhoto
        split
        · exact ⟨h1, h2⟩
        · split
          · exact ⟨h1, h2⟩
          · exact ⟨rfl, Or.inl rfl⟩
      · simp only [step, Bool.not_eq_true] at hc ⊢
        rw [hc]
        exact ⟨h1, h2⟩
  | upload f d =>
      by_cases hu : uploadAvail s = true
      · have hcam : s.isCameraActive = false := by
          simp only [uploadAvail, Bool.and_eq_true, Bool.not_eq_true'] at hu
          exact hu.1.2
        have hstream : s.stream = none := by
          rw [hcam] at h1
          cases hs : s.stream with
          | none => rfl
          | some m => rw [hs] at h1; simp at h1
        simp only [step, hu, if_true]
        refine ⟨?_, Or.inl ?_⟩
        · rw [handleFileUpload_isCameraActive, handleFileUpload_stream]; exact h1
        · rw [handleFileUpload_stream]; exact hstream
      · simp only [step, Bool.not_eq_true] at hu ⊢
        rw [hu]
        exact ⟨h1, h2⟩
  | process c p =>
      by_cases hp : processAvail s = true
      · simp only [step, hp, if_true]
        refine ⟨?_, ?_⟩
        · rw [processImage_fst_isCameraActive, processImage_fst_stream]; exact h1
        · rw [processImage_fst_stream, processImage_fst_previewImage]; exact h2
      · simp only [step, Bool.not_eq_true] at hp ⊢
        rw [hp]
        exact ⟨h1, h2⟩
  | discard =>
      by_cases hd : discardAvail s = true
      · simp only [step, hd, if_true]
        refine ⟨h1, ?_⟩
        cases h2 with
        | inl hs => exact Or.inl hs
        | inr _ => exact Or.inr rfl
      · simp only [step, Bool.not_eq_true] at hd ⊢
        rw [hd]
        exact ⟨h1, h2⟩

/-- Every reachable state satisfies the invariant. -/
theorem reachable_stateInv {s : ControllerState} (h : Reachable s) : StateInv s := by
  induction h with
  | init => exact ⟨rfl, Or.inl rfl⟩
  | next e _ ih => exact stateInv_step _ e ih

/-! ## Claims -/

/-- Claim C1, counterexample: a run from a state holding a preview, with the
classifier returning the in-range age 15 and the persistence call resolving,
ends with the preview image still held — `processImage` never clears it, so
the claim that the held CapturedImage is cleared after the success
transition is false on this input. -/
theorem c1_counterexample :
    previewState.previewImage = some "img" ∧
    (processImage previewState (Except.ok 15) true).1.previewImage = some "img" := by
  exact ⟨rfl, rfl⟩

/-- Claim C1, amended: after the success transition (classifier age in the
inclusive range 13-17), the held CapturedImage (previewImage) is retained
unchanged; the operation clears only the selected-file reference and the
processing flag. -/
theorem c1_success_preserves_preview (s : ControllerState) (img : String)
    (age : Int) (p : Bool) (hprev : s.previewImage = some img)
    (h13 : 13 ≤ age) (h17 : age ≤ 17) :
    (processImage s (Except.ok age) p).1.previewImage = some img ∧
    (processImage s (Except.ok age) p).1.selectedFile = none ∧
    (processImage s (Except.ok age) p).1.isProcessing = false := by
  cases p <;> simp [processImage, hprev, h13, h17]

/-- Claim C1, witness of the amended theorem at a concrete run. -/
theorem c1_witness :
    (processImage previewState (Except.ok 15) true).1.previewImage = some "img" ∧
    (processImage previewState (Except.ok 15) true).1.selectedFile = none ∧
    (processImage previewState (Except.ok 15) true).1.isProcessing = false :=
  c1_success_preserves_preview previewState "img" 15 true rfl (by decide) (by decide)

/-- Claim C2, counterexample: with an in-range age but a rejected persistence
call, the awaited `fetch` throws into the catch block: no confirmation alert
is shown, no navigation is invoked, and the generic Error is attached — so
the claimed independence from the persistence outcome is false on this
input. -/
theorem c2_counterexample :
    (processImage previewState (Except.ok 15) false).2.navigations = 0 ∧
    (processImage previewState (Except.ok 15) false).2.alerts = 0 ∧
    (processImage previewState (Except.ok 15) false).1.error = some processErrorMsg := by
  exact ⟨rfl, rfl, rfl⟩

/-- Claim C2, amended: on an in-range age the persistence call is issued in
either case with the held image and age, but it is awaited, not
fire-and-forget: when it resolves (its response is never inspected), the
confirmation alert is shown, the navigation is invoked exactly once and no
Error is attached; when it rejects, a generic Error is attached and neither
the alert nor the navigation happens. -/
theorem c2_persistence_awaited (s : ControllerState) (img : String) (age : Int)
    (hprev : s.previewImage = some img) (h13 : 13 ≤ age) (h17 : age ≤ 17) :
    (processImage s (Except.ok age) true).2.persistCalls = [(img, age)] ∧
    (processImage s (Except.ok age) true).2.alerts = 1 ∧
    (processImage s (Except.ok age) true).2.navigations = 1 ∧
    (processImage s (Except.ok age) true).1.error = none ∧
    (processImage s (Except.ok age) false).2.persistCalls = [(img, age)] ∧
    (processImage s (Except.ok age) false).2.alerts = 0 ∧
    (processImage s (Except.ok age) false).2.navigations = 0 ∧
    (processImage s (Except.ok age) false).1.error = some processErrorMsg := by
  simp [processImage, hprev, h13, h17]

/-- Claim C2, witness of the amended theorem at a concrete run. -/
theorem c2_witness :
    (processImage previewState (Except.ok 15) true).2.persistCalls = [("img", 15)] ∧
    (processImage previewState (Except.ok 15) true).2.alerts = 1 ∧
    (processImage previewState (Except.ok 15) true).2.navigations = 1 ∧
    (processImage previewState (Except.ok 15) true).1.error = none ∧
    (processImage previewState (Except.ok 15) false).2.persistCalls = [("img", 15)] ∧
    (processImage previewState (Except.ok 15) false).2.alerts = 0 ∧
    (processImage previewState (Except.ok 15) false).2.navigations = 0 ∧
    (processImage previewState (Except.ok 15) false).1.error = some processErrorMsg :=
  c2_persistence_awaited previewState "img" 15 rfl (by decide) (by decide)

/-- Claim C3: evaluation of the code at the failing input.  When
`getUserMedia` succeeds while the video rendering surface is unmounted
(`videoRef.current` null), the guard of line 27 skips the whole success
block: the fresh stream is neither bound as the active handle nor has its
tracks stopped (fate: abandoned), and the controller state is completely
unchanged — the stream leaks, contradicting the tracked-until-released
invariant the spec states. -/
theorem c3_stream_abandoned :
    startCameraStreamFate false = StreamFate.abandoned ∧
    startCamera initialState (some 0) false = initialState ∧
    (startCamera initialState (some 0) false).stream = none := by
  exact ⟨rfl, rfl, rfl⟩

/-- Claim C4: in every state reachable from the initial state by controller
operations, an active stream handle and a held preview image never coexist. -/
theorem c4_mutual_exclusion (s : ControllerState) (h : Reachable s) :
    ¬(s.stream.isSome = true ∧ s.previewImage.isSome = true) := by
  obtain ⟨_, h2⟩ := reachable_stateInv h
  rintro ⟨hs, hp⟩
  cases h2 with
  | inl hn => rw [hn] at hs; exact Bool.noConfusion hs
  | inr hn => rw [hn] at hp; exact Bool.noConfusion hp

/-- Claim C4, witness: the invariant instantiated at the reachable state
obtained by a successful camera acquisition from the initial state. -/
theorem c4_witness :
    ¬((step initialState (Event.acquire (some 5) true)).stream.isSome = true ∧
      (step initialState (Event.acquire (some 5) true)).previewImage.isSome = true) :=
  c4_mutual_exclusion _ (Reachable.next _ Reachable.init)

/-- Claim C5: the validator performs two ordered short-circuiting checks: a
non-image declared type is rejected with the type reason whatever the size;
an image type of size above 5 * 1024 * 1024 bytes is rejected with the size
reason; exactly 5 MiB passes and 5 MiB + 1 is rejected. -/
theorem c5_validate_ordered_checks :
    (∀ f : UploadFile, strStartsWith f.mimeType "image/" = false →
        validateFile f = some fileTypeErrorMsg) ∧
    (∀ f : UploadFile, strStartsWith f.mimeType "image/" = true →
        5 * 1024 * 1024 < f.size → validateFile f = some fileSizeErrorMsg) ∧
    validateFile ⟨"image/jpeg", 5 * 1024 * 1024⟩ = none ∧
    validateFile ⟨"image/jpeg", 5 * 1024 * 1024 + 1⟩ = some fileSizeErrorMsg := by
  refine ⟨?_, ?_, ?_, ?_⟩
  · intro f hf; simp [validateFile, hf]
  · intro f hf hs; simp [validateFile, hf, hs]
  · decide
  · decide

/-- Claim C5, witness: concrete files exercising both rejection checks. -/
theorem c5_witness :
    validateFile ⟨"text/plain", 10⟩ = some fileTypeErrorMsg ∧
    validateFile ⟨"image/png", 6 * 1024 * 1024⟩ = some fileSizeErrorMsg :=
  ⟨c5_validate_ordered_checks.1 ⟨"text/plain", 10⟩ rfl,
   c5_validate_ordered_checks.2.1 ⟨"image/png", 6 * 1024 * 1024⟩ rfl (by norm_num)⟩

/-- Claim C6: when the classifier returns an age outside 13-17, the
operation attaches an Error whose message carries the detected value, keeps
the held preview unchanged, ends with the processing flag cleared, issues no
persistence call and performs no navigation. -/
theorem c6_out_of_range_rejection (s : ControllerState) (img : String)
    (age : Int) (p : Bool) (hprev : s.previewImage = some img)
    (hout : ¬(13 ≤ age ∧ age ≤ 17)) :
    (processImage s (Except.ok age) p).1.error =
        some (rejectionMsgPre ++ toString age ++ rejectionMsgPost) ∧
    (processImage s (Except.ok age) p).1.previewImage = some img ∧
    (processImage s (Except.ok age) p).1.isProcessing = false ∧
    (processImage s (Except.ok age) p).2.persistCalls = [] ∧
    (processImage s (Except.ok age) p).2.navigations = 0 := by
  simp [processImage, hprev, hout]

/-- Claim C6, witness: the classifier returns 25 on a held preview. -/
theorem c6_witness :
    (processImage previewState (Except.ok 25) true).1.error =
        some (rejectionMsgPre ++ toString (25 : Int) ++ rejectionMsgPost) ∧
    (processImage previewState (Except.ok 25) true).1.previewImage = some "img" ∧
    (processImage previewState (Except.ok 25) true).1.isProcessing = false ∧
    (processImage previewState (Except.ok 25) true).2.persistCalls = [] ∧
    (processImage previewState (Except.ok 25) true).2.navigations = 0 :=
  c6_out_of_range_rejection previewState "img" 25 true rfl (by decide)

/-- Claim C7: while the processing flag is set, a capture event and an
upload event are both ignored (their affordances are disabled), leaving the
controller state unchanged. -/
theorem c7_processing_gate (s : ControllerState) (h : s.isProcessing = true)
    (vp cp ctx : Bool) (url : String) (f : Option UploadFile)
    (d : Option String) :
    step s (Event.capture vp cp ctx url) = s ∧ step s (Event.upload f d) = s := by
  constructor <;> simp [step, captureAvail, uploadAvail, h]

/-- Claim C7, witness: a mid-classification state absorbs a capture and an
upload event unchanged. -/
theorem c7_witness :
    step processingState (Event.capture true true true "u") = processingState ∧
    step processingState (Event.upload (some ⟨"image/png", 7⟩) (some "d")) =
      processingState :=
  c7_processing_gate processingState rfl true true true "u"
    (some ⟨"image/png", 7⟩) (some "d")

/-- Claim C8: `stopCamera` is idempotent, total even without a held handle,
and always ends with no stream and CameraActive false. -/
theorem c8_release_idempotent (s : ControllerState) :
    stopCamera (stopCamera s) = stopCamera s ∧
    (stopCamera s).stream = none ∧
    (stopCamera s).isCameraActive = false := by
  exact ⟨rfl, rfl, rfl⟩

/-- Claim C9, counterexample: invoking `capturePhoto` while the video
rendering surface is unavailable returns silently with the state unchanged
and no error attached — the claim that a CaptureError message is surfaced on
this path is false. -/
theorem c9_counterexample :
    capturePhoto initialState false true true "u" = initialState ∧
    (capturePhoto initialState false true true "u").error = none := by
  exact ⟨rfl, rfl⟩

/-- Claim C9, amended: when the rendering surface or the canvas element is
unavailable, `capturePhoto` silently returns with the state unchanged and no
error attached; only when the raster buffer context is unavailable is the
CaptureError message attached, the rest of the state unchanged. -/
theorem c9_capture_failure_paths (s : ControllerState) (vp cp ctx : Bool)
    (url : String) (h : vp = false ∨ cp = false) :
    capturePhoto s vp cp ctx url = s ∧
    capturePhoto s true true false url = { s with error := some captureErrorMsg } := by
  constructor
  · rcases h with h | h <;> simp [capturePhoto, h]
  · rfl

/-- Claim C9, witness of the amended theorem at a concrete input. -/
theorem c9_witness :
    capturePhoto initialState false true true "u" = initialState ∧
    capturePhoto initialState true true false "u" =
      { initialState with error := some captureErrorMsg } :=
  c9_capture_failure_paths initialState false true true "u" (Or.inl rfl)

/-- Claim C10, counterexample: after a fully successful upload the
selected-file reference is still held — `handleFileUpload` records the file
and never clears it, so the claim that it is discarded by the time the call
completes is false. -/
theorem c10_counterexample :
    (handleFileUpload initialState (some ⟨"image/png", 100⟩) (some "d")).selectedFile =
      some ⟨"image/png", 100⟩ := by
  decide

/-- Claim C10, amended: `handleFileUpload` retains the UploadedFile
reference at completion on every path (validation failure, decode failure,
success); the reference is discarded only later, by the completion of
`processImage` (its finally block) or by `resetCapture`. -/
theorem c10_file_reference_lifecycle (s : ControllerState) (file : UploadFile)
    (d : Option String) (img : String) (c : Except Unit Int) (p : Bool)
    (hprev : s.previewImage = some img) :
    (handleFileUpload s (some file) d).selectedFile = some file ∧
    (processImage s c p).1.selectedFile = none ∧
    (resetCapture s).selectedFile = none := by
  refine ⟨?_, ?_, rfl⟩
  · cases hv : validateFile file with
    | some m => simp [handleFileUpload, hv]
    | none => cases d <;> simp [handleFileUpload, hv]
  · cases c with
    | error e => simp [processImage, hprev]
    | ok age =>
        by_cases hr : 13 ≤ age ∧ age ≤ 17
        · cases p <;> simp [processImage, hprev, hr]
        · simp [processImage, hprev, hr]

/-- Claim C10, witness of the amended theorem at a concrete run. -/
theorem c10_witness :
    (handleFileUpload previewState (some ⟨"image/png", 100⟩) (some "d")).selectedFile =
      some ⟨"image/png", 100⟩ ∧
    (processImage previewState (Except.ok 15) true).1.selectedFile = none ∧
    (resetCapture previewState).selectedFile = none :=
  c10_file_reference_lifecycle previewState ⟨"image/png", 100⟩ (some "d") "img"
    (Except.ok 15) true rfl

end AgeVerification
